import Mathlib

/-!
Verification of the repository-classification heuristic and the workflow
orchestration of the VM-snoozing proof of concept.

The embedding follows `src/tools/repo_inspector.py`, `src/main.py` and
`src/tools/notification_client.py`.  File-system paths are modelled as lists
of path components (`Path`); the empty list stands for the repository root,
which `os.path.relpath` renders as `"."`.  Python floats are modelled as
rationals: every constant in the scorer is a multiple of 1/20, and every
comparison the claims depend on is exact at that granularity.
-/

namespace VMSnooze

/-- A relative path, as its list of components.  `[]` is the repository
root (printed `"."` by `os.path.relpath`); a file `sub/f.tf` is
`["sub", "f.tf"]`. -/
abbrev Path := List String

/-- A directory tree: a directory has a basename, a list of plain file
basenames and a list of subdirectories.  This is the structure `os.walk`
traverses. -/
inductive FSTree where
  | node (name : String) (files : List String) (subdirs : List FSTree)
deriving Repr

def FSTree.name : FSTree → String
  | .node n _ _ => n

def FSTree.files : FSTree → List String
  | .node _ fs _ => fs

def FSTree.subdirs : FSTree → List FSTree
  | .node _ _ ds => ds

/-- `pat` occurs at the head of `l` (character-level prefix test). -/
def charsLeading : List Char → List Char → Bool
  | [], _ => true
  | _ :: _, [] => false
  | p :: ps, c :: cs => p == c && charsLeading ps cs

/-- `pat` occurs somewhere in `l` (character-level substring test). -/
def charsContains (pat : List Char) : List Char → Bool
  | [] => charsLeading pat []
  | c :: tl => charsLeading pat (c :: tl) || charsContains pat tl

/-- Python `pat in s` on strings. -/
def containsStr (s pat : String) : Bool :=
  charsContains pat.data s.data

/-- Python `s.startswith(pat)`. -/
def startsWithStr (s pat : String) : Bool :=
  charsLeading pat.data s.data

/-- Python `s.endswith(suf)`. -/
def endsWithStr (s suf : String) : Bool :=
  charsLeading suf.data.reverse s.data.reverse

/-- ASCII lower-casing of one character. -/
def charLower (c : Char) : Char :=
  if 'A' ≤ c ∧ c ≤ 'Z' then Char.ofNat (c.toNat + 32) else c

/-- Python `s.lower()`; the names the source lower-cases are ASCII. -/
def toLowerStr (s : String) : String := ⟨s.data.map charLower⟩

/-- The directory filter of both detectors
(`repo_inspector.py` lines 92 and 124): drop hidden directories and the
fixed exclusion set. -/
def keepDir (d : String) : Bool :=
  !(startsWithStr d ".") && !(["node_modules", "venv", "__pycache__"].contains d)

/-- One directory visited by `os.walk`: its path relative to the root, its
own basename, and the plain files it contains. -/
structure VisitedDir where
  rel : Path
  base : String
  files : List String
deriving Repr, DecidableEq

mutual
/-- `os.walk` over the tree, top-down, with the in-place pruning of
`dirs[:] = [d for d in dirs if ...]`: the current directory is always
yielded; only kept subdirectories are descended into. -/
def walkTree (rel : Path) : FSTree → List VisitedDir
  | .node name files subdirs =>
    ⟨rel, name, files⟩ :: walkChildren rel subdirs

def walkChildren (rel : Path) : List FSTree → List VisitedDir
  | [] => []
  | t :: ts =>
    (if keepDir t.name then walkTree (rel ++ [t.name]) t else [])
      ++ walkChildren rel ts
end

/-- The Terraform evidence buckets, keys in the insertion order of the
`patterns` dict of `_detect_terraform` (lines 82-88). -/
structure TfPatterns where
  tf_files : List Path
  tfvars_files : List Path
  terraform_dirs : List Path
  provider_configs : List Path
  state_files : List Path
deriving Repr, DecidableEq

/-- The Bicep evidence buckets, keys in the insertion order of the
`patterns` dict of `_detect_bicep` (lines 115-120). -/
structure BicepPatterns where
  bicep_files : List Path
  bicepparam_files : List Path
  bicep_dirs : List Path
  main_bicep : List Path
deriving Repr, DecidableEq

/-- Classification of one file by `_detect_terraform` (lines 94-105):
the if/elif chain on the file basename, recording the relative path. -/
def tfFileStep (rel : Path) (p : TfPatterns) (f : String) : TfPatterns :=
  if endsWithStr f ".tf" then
    let p := { p with tf_files := p.tf_files ++ [rel ++ [f]] }
    if containsStr (toLowerStr f) "provider" then
      { p with provider_configs := p.provider_configs ++ [rel ++ [f]] }
    else p
  else if endsWithStr f ".tfvars" then
    { p with tfvars_files := p.tfvars_files ++ [rel ++ [f]] }
  else if f == "terraform.tfstate" || endsWithStr f ".tfstate" then
    { p with state_files := p.state_files ++ [rel ++ [f]] }
  else p

/-- One `os.walk` iteration of `_detect_terraform` (lines 90-109): classify
every file of the visited directory, then the directory-name check. -/
def tfDirStep (p : TfPatterns) (v : VisitedDir) : TfPatterns :=
  let p := v.files.foldl (tfFileStep v.rel) p
  if containsStr (toLowerStr v.base) "terraform" then
    { p with terraform_dirs := p.terraform_dirs ++ [v.rel] }
  else p

/-- `RepoInspector._detect_terraform` (lines 80-111). -/
def detect_terraform (t : FSTree) : TfPatterns :=
  (walkTree [] t).foldl tfDirStep ⟨[], [], [], [], []⟩

/-- Classification of one file by `_detect_bicep` (lines 126-135). -/
def bicepFileStep (rel : Path) (p : BicepPatterns) (f : String) : BicepPatterns :=
  if endsWithStr f ".bicep" then
    let p := { p with bicep_files := p.bicep_files ++ [rel ++ [f]] }
    if f == "main.bicep" || f == "azuredeploy.bicep" then
      { p with main_bicep := p.main_bicep ++ [rel ++ [f]] }
    else p
  else if endsWithStr f ".bicepparam" then
    { p with bicepparam_files := p.bicepparam_files ++ [rel ++ [f]] }
  else p

/-- One `os.walk` iteration of `_detect_bicep` (lines 122-139). -/
def bicepDirStep (p : BicepPatterns) (v : VisitedDir) : BicepPatterns :=
  let p := v.files.foldl (bicepFileStep v.rel) p
  if containsStr (toLowerStr v.base) "bicep" || containsStr (toLowerStr v.base) "infra"
      || containsStr (toLowerStr v.base) "infrastructure" then
    { p with bicep_dirs := p.bicep_dirs ++ [v.rel] }
  else p

/-- `RepoInspector._detect_bicep` (lines 113-141). -/
def detect_bicep (t : FSTree) : BicepPatterns :=
  (walkTree [] t).foldl bicepDirStep ⟨[], [], [], []⟩

/-- The `patterns` dict of `_detect_terraform` as the association list
`_calculate_confidence` iterates over, in insertion order. -/
def tfBuckets (p : TfPatterns) : List (String × List Path) :=
  [("tf_files", p.tf_files), ("tfvars_files", p.tfvars_files),
   ("terraform_dirs", p.terraform_dirs), ("provider_configs", p.provider_configs),
   ("state_files", p.state_files)]

/-- The `patterns` dict of `_detect_bicep` as the association list
`_calculate_confidence` iterates over, in insertion order. -/
def bicepBuckets (p : BicepPatterns) : List (String × List Path) :=
  [("bicep_files", p.bicep_files), ("bicepparam_files", p.bicepparam_files),
   ("bicep_dirs", p.bicep_dirs), ("main_bicep", p.main_bicep)]

/-- The per-bucket contribution of `_calculate_confidence` (lines 148-163):
the `if not items: continue` skip followed by the key-driven if/elif chain
choosing weight and cap. -/
def contribution {α : Type} (key : String) (items : List α) : ℚ :=
  if items.isEmpty then 0
  else if key = "tf_files" ∨ key = "bicep_files" then
    min ((items.length : ℚ) * 0.2) 0.6
  else if key = "provider_configs" ∨ key = "main_bicep" then
    min ((items.length : ℚ) * 0.3) 0.3
  else if key = "terraform_dirs" ∨ key = "bicep_dirs" then
    min ((items.length : ℚ) * 0.1) 0.2
  else
    min ((items.length : ℚ) * 0.05) 0.1

/-- `RepoInspector._calculate_confidence` (lines 143-165): running sum of the
per-bucket contributions over the dict, then `min(score, 1.0)`. -/
def calculate_confidence {α : Type} (patterns : List (String × List α)) : ℚ :=
  min (patterns.foldl (fun score b => score + contribution b.1 b.2) 0) 1

/-- The score dispatch of `inspect_repository` (lines 54-67), returning the
`(infra_type, confidence)` pair those branches assign.  The third branch is
the default-to-Bicep fallback with the fixed confidence `0.5`. -/
def classifyDialect (terraform_score bicep_score : ℚ) : String × ℚ :=
  if terraform_score > bicep_score ∧ terraform_score > 0 then
    ("terraform", terraform_score)
  else if bicep_score > terraform_score ∧ bicep_score > 0 then
    ("bicep", bicep_score)
  else
    ("bicep", 0.5)

/-- The `patterns` value carried to `_suggest_file_paths`: one of the two
dialects' bucket dicts. -/
inductive Patterns where
  | tf (p : TfPatterns)
  | bicep (p : BicepPatterns)
deriving Repr, DecidableEq

/-- `patterns.get('terraform_dirs')`: `[]` plays the role of the falsy
`None`/empty-list results of `.get` on the wrong dict. -/
def Patterns.terraform_dirs : Patterns → List Path
  | .tf p => p.terraform_dirs
  | .bicep _ => []

def Patterns.tf_files : Patterns → List Path
  | .tf p => p.tf_files
  | .bicep _ => []

def Patterns.bicep_dirs : Patterns → List Path
  | .bicep p => p.bicep_dirs
  | .tf _ => []

def Patterns.bicep_files : Patterns → List Path
  | .bicep p => p.bicep_files
  | .tf _ => []

/-- `os.path.exists(os.path.join(repo_path, 'infra'))` (lines 184 and 199):
the repository root has a top-level entry — file or directory — named
`infra`. -/
def existsTopLevel (t : FSTree) (n : String) : Bool :=
  t.files.contains n || (t.subdirs.map FSTree.name).contains n

/-- The three suggested paths.  `os.path.dirname` is `List.dropLast` and
`os.path.join` is list append in the component model; the empty-string
`iac_dir` the source initializes with is the empty component list. -/
structure Suggestions where
  iac_dir : Path
  automation_dir : Path
  runbooks_dir : Path
deriving Repr, DecidableEq

/-- `RepoInspector._suggest_file_paths` (lines 167-205). -/
def suggest_file_paths (t : FSTree) (infra_type : String) (patterns : Patterns) :
    Suggestions :=
  if infra_type = "terraform" then
    let base_dir :=
      if patterns.terraform_dirs ≠ [] then patterns.terraform_dirs.headD []
      else if patterns.tf_files ≠ [] then (patterns.tf_files.headD []).dropLast
      else if existsTopLevel t "infra" then ["infra", "terraform"] else ["terraform"]
    ⟨base_dir, base_dir ++ ["automation"], base_dir ++ ["automation", "runbooks"]⟩
  else if infra_type = "bicep" then
    let base_dir :=
      if patterns.bicep_dirs ≠ [] then patterns.bicep_dirs.headD []
      else if patterns.bicep_files ≠ [] then (patterns.bicep_files.headD []).dropLast
      else if existsTopLevel t "infra" then ["infra", "bicep"] else ["bicep"]
    ⟨base_dir, base_dir ++ ["automation"], base_dir ++ ["automation", "runbooks"]⟩
  else
    ⟨[], [], []⟩

/-- The record `inspect_repository` returns (lines 72-78).  `repo_path` is
the root directory the Python code was pointed at, identified here with the
root basename. -/
structure InspectResult where
  infra_type : String
  confidence : ℚ
  patterns_found : Patterns
  suggested_paths : Suggestions
  repo_path : String
deriving Repr, DecidableEq

/-- The literal key set of the dict returned by `inspect_repository`
(lines 72-78); the result carries no other field. -/
def inspectResultFields : List String :=
  ["infra_type", "confidence", "patterns_found", "suggested_paths", "repo_path"]

/-- `RepoInspector.inspect_repository` (lines 25-78): run both detectors,
score both bucket dicts, dispatch on the scores, and attach suggestions.
The winning branch also fixes which bucket dict is reported as
`patterns_found` (the Terraform one only in the Terraform branch). -/
def inspect_repository (t : FSTree) : InspectResult :=
  let terraform_patterns := detect_terraform t
  let bicep_patterns := detect_bicep t
  let terraform_score := calculate_confidence (tfBuckets terraform_patterns)
  let bicep_score := calculate_confidence (bicepBuckets bicep_patterns)
  let ic := classifyDialect terraform_score bicep_score
  let patterns : Patterns :=
    if ic.1 = "terraform" then .tf terraform_patterns else .bicep bicep_patterns
  { infra_type := ic.1
    confidence := ic.2
    patterns_found := patterns
    suggested_paths := suggest_file_paths t ic.1 patterns
    repo_path := t.name }

/-! ## The orchestrator of `src/main.py`

`VMSnoozingWorkflow.execute` awaits a sequence of collaborator calls, each of
which either returns a value or raises; an exception anywhere in the `try`
body jumps to the single `except` handler (lines 179-187).  Each collaborator
outcome is a field of `ExecEnv`, of type `Except String α` — `.error e`
models a raised exception whose `str(e)` is `e`.  Payloads and results are
restricted to the fields the specification's error-handling contract speaks
about. -/

/-- The guard of `execute` (lines 72-73):
`if not infra_type or infra_type not in ['terraform', 'bicep']`. -/
def invalidInfraGuard (infra_type : String) : Bool :=
  infra_type == "" || !(infra_type == "terraform" || infra_type == "bicep")

/-- One validation check's report, the dict the `_run_terraform_fmt`-style
helpers return; `error` is only read when `passed` is false. -/
structure CheckResult where
  name : String
  passed : Bool
  error : String
deriving Repr, DecidableEq

/-- The `results` dict `_run_validation_checks` builds (lines 206-210). -/
structure ValidationResults where
  passed : Bool
  checks : List CheckResult
  errors : List String
deriving Repr, DecidableEq

deriving instance DecidableEq for Except

/-- Outcomes of the four individual check helpers, as collaborators: each
may return a report or raise. -/
structure ValidationEnv where
  terraform_fmt : Except String CheckResult
  terraform_validate : Except String CheckResult
  bicep_build : Except String CheckResult
  secret_scan : Except String CheckResult
deriving Repr, DecidableEq

/-- One check inside the `try` of `_run_validation_checks`: append the
report and record its error when it failed; a raised exception is caught by
the `except` (lines 243-246), which marks the run failed, appends `str(e)`
and returns.  The boolean is true when the exception path was taken, so the
caller stops running further checks. -/
def applyCheck (st : ValidationResults) : Except String CheckResult →
    ValidationResults × Bool
  | .error e => (⟨false, st.checks, st.errors ++ [e]⟩, true)
  | .ok c =>
    (⟨st.passed && c.passed, st.checks ++ [c],
      if c.passed then st.errors else st.errors ++ [c.error]⟩, false)

/-- `VMSnoozingWorkflow._run_validation_checks` (lines 189-248): the
dialect-specific checks in order, then the secret scan; total, never
raising. -/
def run_validation_checks (infra_type : String) (env : ValidationEnv) :
    ValidationResults :=
  let st : ValidationResults := ⟨true, [], []⟩
  if infra_type = "terraform" then
    match applyCheck st env.terraform_fmt with
    | (st, true) => st
    | (st, false) =>
      match applyCheck st env.terraform_validate with
      | (st, true) => st
      | (st, false) => (applyCheck st env.secret_scan).1
  else if infra_type = "bicep" then
    match applyCheck st env.bicep_build with
    | (st, true) => st
    | (st, false) => (applyCheck st env.secret_scan).1
  else
    (applyCheck st env.secret_scan).1

/-- A payload handed to `NotificationClient.send_notification`, restricted
to the claim-relevant keys of the three payload dicts of `execute`
(lines 123-129, 157-167, 181-186). -/
structure Notification where
  workflow_id : String
  status : String
  error : Option String
  errors : Option (List String)
deriving Repr, DecidableEq

/-- The dict `execute` returns, restricted to the claim-relevant keys of
lines 130-135 and 170-177. -/
structure WfResult where
  success : Bool
  workflow_id : String
  error : Option String
  details : Option ValidationResults
deriving Repr, DecidableEq

/-- The collaborator outcomes one run of `execute` can observe.
`inspect_infra_type` is the `infra_type` field of the inspection result
(line 69), or the exception the inspection raised. -/
structure ExecEnv where
  inspect_infra_type : Except String String
  create_branch : Except String String
  generate_files : Except String (List String)
  commit_files : Except String String
  validation : ValidationEnv
  create_pull_request : Except String (Nat × String)
deriving Repr, DecidableEq

/-- The `try` body of `execute` (lines 65-177): every `.error` arm is an
exception propagating to the `except` handler.  On a normal exit the value
carries the notifications sent inside the `try` (there is exactly one on
each of the two normal paths) together with the returned dict.
`NotificationClient.send_notification` itself never raises: it only logs
and returns `True` (`notification_client.py` lines 24-40). -/
def executeTry (workflow_id : String) (env : ExecEnv) :
    Except String (List Notification × WfResult) :=
  match env.inspect_infra_type with
  | .error e => .error e
  | .ok infra_type =>
    if invalidInfraGuard infra_type then
      .error ("Unable to detect valid infrastructure type: " ++ infra_type)
    else
      match env.create_branch with
      | .error e => .error e
      | .ok _ =>
        match env.generate_files with
        | .error e => .error e
        | .ok _ =>
          match env.commit_files with
          | .error e => .error e
          | .ok _ =>
            let v := run_validation_checks infra_type env.validation
            if !v.passed then
              .ok ([⟨workflow_id, "failed_validation", none, some v.errors⟩],
                   ⟨false, workflow_id, some "Validation checks failed", some v⟩)
            else
              match env.create_pull_request with
              | .error e => .error e
              | .ok _ =>
                .ok ([⟨workflow_id, "pr_created", none, none⟩],
                     ⟨true, workflow_id, none, some v⟩)

/-- `VMSnoozingWorkflow.execute` (lines 51-187): the `try` body wrapped by
the `except Exception` handler, which sends one `'failed'` notification
carrying `str(e)` and re-raises.  The first component collects every
notification sent during the run, in order. -/
def execute (workflow_id : String) (env : ExecEnv) :
    List Notification × Except String WfResult :=
  match executeTry workflow_id env with
  | .ok (ns, r) => (ns, .ok r)
  | .error e => ([⟨workflow_id, "failed", some e, none⟩], .error e)

/-! ## Helper lemmas about the confidence scorer -/

theorem contribution_nonneg {α : Type} (key : String) (items : List α) :
    0 ≤ contribution key items := by
  unfold contribution
  split_ifs <;> first
    | rfl
    | exact le_min (by positivity) (by norm_num)

theorem foldl_add_contribution {α : Type} (l : List (String × List α)) (a : ℚ) :
    l.foldl (fun score b => score + contribution b.1 b.2) a
      = a + (l.map fun b => contribution b.1 b.2).sum := by
  induction l generalizing a with
  | nil => simp
  | cons hd tl ih => simp [List.foldl_cons, ih, add_assoc]

theorem calculate_confidence_eq_sum {α : Type} (l : List (String × List α)) :
    calculate_confidence l = min ((l.map fun b => contribution b.1 b.2).sum) 1 := by
  unfold calculate_confidence
  rw [foldl_add_contribution, zero_add]

theorem calculate_confidence_nonneg {α : Type} (l : List (String × List α)) :
    0 ≤ calculate_confidence l := by
  rw [calculate_confidence_eq_sum]
  refine le_min ?_ (by norm_num)
  refine List.sum_nonneg ?_
  intro x hx
  obtain ⟨b, _, rfl⟩ := List.mem_map.mp hx
  exact contribution_nonneg _ _

theorem calculate_confidence_le_one {α : Type} (l : List (String × List α)) :
    calculate_confidence l ≤ 1 := by
  rw [calculate_confidence_eq_sum]; exact min_le_right _ _

theorem contribution_le_append {α : Type} (key : String) (items : List α) (x : α) :
    contribution key items ≤ contribution key (items ++ [x]) := by
  unfold contribution
  rcases items with _ | ⟨y, ys⟩
  · simp only [List.isEmpty_nil, if_true, List.nil_append]
    split_ifs <;> first
      | rfl
      | exact le_min (by positivity) (by norm_num)
  · simp only [List.cons_append, List.isEmpty_cons, Bool.false_eq_true, if_false,
      List.length_append, List.length_cons, List.length_nil]
    have hlen : ((ys.length + 1 : ℕ) : ℚ) ≤ ((ys.length + 0 + 1 + 1 : ℕ) : ℚ) := by
      push_cast; linarith
    split_ifs <;>
      exact min_le_min (by apply mul_le_mul_of_nonneg_right hlen; norm_num) le_rfl
/-- The per-item weight of the claim's reference scorer, by bucket key. -/
def weightOf (key : String) : ℚ :=
  if key = "tf_files" ∨ key = "bicep_files" then 0.2
  else if key = "provider_configs" ∨ key = "main_bicep" then 0.3
  else if key = "terraform_dirs" ∨ key = "bicep_dirs" then 0.1
  else 0.05

/-- The saturation cap of the claim's reference scorer, by bucket key. -/
def capOf (key : String) : ℚ :=
  if key = "tf_files" ∨ key = "bicep_files" then 0.6
  else if key = "provider_configs" ∨ key = "main_bicep" then 0.3
  else if key = "terraform_dirs" ∨ key = "bicep_dirs" then 0.2
  else 0.1

/-- The reference scorer stated by the claim: the sum over buckets of
`min(item_count × weight, cap)`, clamped to at most `1.0`. -/
def confidence_spec {α : Type} (patterns : List (String × List α)) : ℚ :=
  min ((patterns.map fun b => min ((b.2.length : ℚ) * weightOf b.1) (capOf b.1)).sum) 1

theorem capOf_nonneg (key : String) : 0 ≤ capOf key := by
  unfold capOf; split_ifs <;> norm_num

theorem contribution_eq_spec {α : Type} (key : String) (items : List α) :
    contribution key items = min ((items.length : ℚ) * weightOf key) (capOf key) := by
  unfold contribution weightOf capOf
  rcases items with _ | ⟨y, ys⟩
  · simp only [List.isEmpty_nil, if_true, List.length_nil, Nat.cast_zero, zero_mul]
    split_ifs <;> rw [min_eq_left (by norm_num)]
  · simp only [List.isEmpty_cons, Bool.false_eq_true, if_false]
    split_ifs <;> rfl

/-- C2: the implemented scorer coincides with the reference definition. -/
theorem calculate_confidence_eq_spec {α : Type} (patterns : List (String × List α)) :
    calculate_confidence patterns = confidence_spec patterns := by
  rw [calculate_confidence_eq_sum, confidence_spec]
  congr 1
  exact congrArg List.sum
    (List.map_congr_left fun (b : String × List α) _ => contribution_eq_spec b.1 b.2)

/-- C3 support: appending an item to one bucket never lowers the score. -/
theorem calculate_confidence_mono_append {α : Type}
    (pre post : List (String × List α)) (k : String) (items : List α) (x : α) :
    calculate_confidence (pre ++ (k, items) :: post)
      ≤ calculate_confidence (pre ++ (k, items ++ [x]) :: post) := by
  rw [calculate_confidence_eq_sum, calculate_confidence_eq_sum]
  refine min_le_min ?_ le_rfl
  simp only [List.map_append, List.map_cons, List.sum_append, List.sum_cons]
  have := contribution_le_append k items x
  linarith

/-! ## Claim theorems for the scorer and the dialect dispatch -/

/-- C2: for every evidence-bucket map, `_calculate_confidence` equals the
reference definition: the sum over buckets of `min(item_count × weight, cap)`
with weight 0.2 / cap 0.6 for `tf_files` and `bicep_files`, 0.3 / 0.3 for
`provider_configs` and `main_bicep`, 0.1 / 0.2 for `terraform_dirs` and
`bicep_dirs`, 0.05 / 0.1 for every other bucket, the total clamped to at
most 1.0. -/
theorem claim_C2_scorer_equals_reference {α : Type}
    (patterns : List (String × List α)) :
    calculate_confidence patterns = confidence_spec patterns :=
  calculate_confidence_eq_spec patterns

/-- C3: the scorer's output always lies in `[0, 1]`, and appending one item
to any single bucket, holding the other buckets fixed, never decreases it. -/
theorem claim_C3_score_range_and_monotone {α : Type} :
    (∀ patterns : List (String × List α),
      0 ≤ calculate_confidence patterns ∧ calculate_confidence patterns ≤ 1) ∧
    (∀ (pre post : List (String × List α)) (k : String) (items : List α) (x : α),
      calculate_confidence (pre ++ (k, items) :: post)
        ≤ calculate_confidence (pre ++ (k, items ++ [x]) :: post)) :=
  ⟨fun patterns => ⟨calculate_confidence_nonneg patterns, calculate_confidence_le_one patterns⟩,
   calculate_confidence_mono_append⟩

/-- C1: on any two bucket maps' scores, the dispatch of `inspect_repository`
gives the strictly higher score's dialect the win — symmetrically in the two
dialects — and resolves a tie (including the all-zero tie) to the default
dialect `bicep` with the fixed default-guess confidence 0.5, never to a
`none` dialect. -/
theorem claim_C1_strict_winner_tie_defaults_bicep
    (p q : List (String × List Path)) :
    (calculate_confidence q < calculate_confidence p →
      classifyDialect (calculate_confidence p) (calculate_confidence q)
        = ("terraform", calculate_confidence p)) ∧
    (calculate_confidence p < calculate_confidence q →
      classifyDialect (calculate_confidence p) (calculate_confidence q)
        = ("bicep", calculate_confidence q)) ∧
    (calculate_confidence p = calculate_confidence q →
      classifyDialect (calculate_confidence p) (calculate_confidence q)
        = ("bicep", 0.5)) := by
  have hp := calculate_confidence_nonneg p
  have hq := calculate_confidence_nonneg q
  unfold classifyDialect
  refine ⟨fun h => ?_, fun h => ?_, fun h => ?_⟩
  · rw [if_pos ⟨h, lt_of_le_of_lt hq h⟩]
  · rw [if_neg (by push_neg; intro hgt; exact absurd hgt (not_lt.mpr h.le)),
      if_pos ⟨h, lt_of_le_of_lt hp h⟩]
  · rw [if_neg (by simp [h]), if_neg (by simp [h])]

def c1WinBuckets : List (String × List Path) := [("tf_files", [["a.tf"]])]

def c1EmptyBuckets : List (String × List Path) := []

theorem c1_win_score : calculate_confidence c1WinBuckets = 0.2 := by
  simp only [calculate_confidence, c1WinBuckets, contribution, List.foldl]
  simp
  norm_num [min_def]

theorem c1_empty_score : calculate_confidence c1EmptyBuckets = 0 := by
  simp [calculate_confidence, c1EmptyBuckets]

theorem c1_empty_lt_win :
    calculate_confidence c1EmptyBuckets < calculate_confidence c1WinBuckets := by
  rw [c1_win_score, c1_empty_score]; norm_num

/-- Witness for C1 at a concrete pair of bucket maps: one `.tf` file beats
no evidence. -/
theorem claim_C1_witness :
    classifyDialect (calculate_confidence c1WinBuckets)
        (calculate_confidence c1EmptyBuckets)
      = ("terraform", calculate_confidence c1WinBuckets) :=
  (claim_C1_strict_winner_tie_defaults_bicep c1WinBuckets c1EmptyBuckets).1
    c1_empty_lt_win

/-! ## The dispatch never yields an invalid dialect -/

theorem classifyDialect_fst (a b : ℚ) :
    (classifyDialect a b).1 = "terraform" ∨ (classifyDialect a b).1 = "bicep" := by
  unfold classifyDialect
  split_ifs <;> simp

theorem inspect_infra_type_eq (t : FSTree) :
    (inspect_repository t).infra_type
      = (classifyDialect (calculate_confidence (tfBuckets (detect_terraform t)))
          (calculate_confidence (bicepBuckets (detect_bicep t)))).1 := rfl

theorem inspect_confidence_eq (t : FSTree) :
    (inspect_repository t).confidence
      = (classifyDialect (calculate_confidence (tfBuckets (detect_terraform t)))
          (calculate_confidence (bicepBuckets (detect_bicep t)))).2 := rfl

/-- C10: for every repository tree, `inspect_repository` reports
`'terraform'` or `'bicep'` — never an empty or foreign value — so the
`ValueError` guard of `VMSnoozingWorkflow.execute` can never fire on its
output. -/
theorem claim_C10_infra_type_always_valid (t : FSTree) :
    ((inspect_repository t).infra_type = "terraform" ∨
      (inspect_repository t).infra_type = "bicep") ∧
    invalidInfraGuard (inspect_repository t).infra_type = false := by
  rw [inspect_infra_type_eq]
  rcases classifyDialect_fst (calculate_confidence (tfBuckets (detect_terraform t)))
      (calculate_confidence (bicepBuckets (detect_bicep t))) with h | h <;>
    rw [h] <;> exact ⟨by simp, by decide⟩

/-! ## Concrete repositories used by the end-to-end claims -/

/-- A repository with exactly `main.tf` and `provider.tf` at top level. -/
def mainTfTree : FSTree := .node "repo" ["main.tf", "provider.tf"] []

/-- An empty repository directory with a neutral basename. -/
def emptyRepoTree : FSTree := .node "repo" [] []

/-- A repository whose only file is a provider-named Terraform file. -/
def provOnlyTree : FSTree := .node "repo" ["provider.tf"] []

/-- A repository whose only Terraform file sits in a subdirectory `x`. -/
def subdirTfTree : FSTree := .node "repo" [] [.node "x" ["y.tf"] []]

theorem mainTf_det_tf : detect_terraform mainTfTree
    = ⟨[["main.tf"], ["provider.tf"]], [], [], [["provider.tf"]], []⟩ := by decide

theorem mainTf_det_bicep : detect_bicep mainTfTree = ⟨[], [], [], []⟩ := by decide

theorem empty_det_tf : detect_terraform emptyRepoTree = ⟨[], [], [], [], []⟩ := by decide

theorem empty_det_bicep : detect_bicep emptyRepoTree = ⟨[], [], [], []⟩ := by decide

theorem prov_det_tf : detect_terraform provOnlyTree
    = ⟨[["provider.tf"]], [], [], [["provider.tf"]], []⟩ := by decide

theorem prov_det_bicep : detect_bicep provOnlyTree = ⟨[], [], [], []⟩ := by decide

theorem subdir_det_tf : detect_terraform subdirTfTree
    = ⟨[["x", "y.tf"]], [], [], [], []⟩ := by decide

theorem subdir_det_bicep : detect_bicep subdirTfTree = ⟨[], [], [], []⟩ := by decide

theorem calc_tf_empty : calculate_confidence (tfBuckets ⟨[], [], [], [], []⟩) = 0 := by
  simp only [calculate_confidence, tfBuckets, contribution, List.foldl]
  simp

theorem calc_bicep_empty : calculate_confidence (bicepBuckets ⟨[], [], [], []⟩) = 0 := by
  simp only [calculate_confidence, bicepBuckets, contribution, List.foldl]
  simp

theorem mainTf_score :
    calculate_confidence (tfBuckets ⟨[["main.tf"], ["provider.tf"]], [], [],
      [["provider.tf"]], []⟩) = 0.7 := by
  simp only [calculate_confidence, tfBuckets, contribution, List.foldl]
  simp
  norm_num [min_def]

theorem prov_score :
    calculate_confidence (tfBuckets ⟨[["provider.tf"]], [], [],
      [["provider.tf"]], []⟩) = 0.5 := by
  simp only [calculate_confidence, tfBuckets, contribution, List.foldl]
  simp
  norm_num [min_def]

theorem subdir_score :
    calculate_confidence (tfBuckets ⟨[["x", "y.tf"]], [], [], [], []⟩) = 0.2 := by
  simp only [calculate_confidence, tfBuckets, contribution, List.foldl]
  simp
  norm_num [min_def]

theorem mainTf_infra : (inspect_repository mainTfTree).infra_type = "terraform" := by
  rw [inspect_infra_type_eq, mainTf_det_tf, mainTf_det_bicep, mainTf_score,
    calc_bicep_empty]
  norm_num [classifyDialect]

theorem mainTf_confidence : (inspect_repository mainTfTree).confidence = 0.7 := by
  rw [inspect_confidence_eq, mainTf_det_tf, mainTf_det_bicep, mainTf_score,
    calc_bicep_empty]
  norm_num [classifyDialect]

theorem empty_infra : (inspect_repository emptyRepoTree).infra_type = "bicep" := by
  rw [inspect_infra_type_eq, empty_det_tf, empty_det_bicep, calc_tf_empty,
    calc_bicep_empty]
  norm_num [classifyDialect]

theorem empty_confidence : (inspect_repository emptyRepoTree).confidence = 0.5 := by
  rw [inspect_confidence_eq, empty_det_tf, empty_det_bicep, calc_tf_empty,
    calc_bicep_empty]
  norm_num [classifyDialect]

theorem prov_infra : (inspect_repository provOnlyTree).infra_type = "terraform" := by
  rw [inspect_infra_type_eq, prov_det_tf, prov_det_bicep, prov_score, calc_bicep_empty]
  norm_num [classifyDialect]

theorem prov_confidence : (inspect_repository provOnlyTree).confidence = 0.5 := by
  rw [inspect_confidence_eq, prov_det_tf, prov_det_bicep, prov_score, calc_bicep_empty]
  norm_num [classifyDialect]

theorem subdir_infra : (inspect_repository subdirTfTree).infra_type = "terraform" := by
  rw [inspect_infra_type_eq, subdir_det_tf, subdir_det_bicep, subdir_score,
    calc_bicep_empty]
  norm_num [classifyDialect]

/-! ## C6, C8: the end-to-end classification scenarios -/

/-- Counterexample to C6 as stated: inspecting the `main.tf`/`provider.tf`
repository does classify it as Terraform with positive confidence, but the
returned record carries no `provider` field at all (its keys are exactly
`inspectResultFields`), so no provider equal to `azure` or `aws` is
reported. -/
theorem claim_C6_counterexample :
    (inspect_repository mainTfTree).infra_type = "terraform" ∧
    0 < (inspect_repository mainTfTree).confidence ∧
    "provider" ∉ inspectResultFields :=
  ⟨mainTf_infra, by rw [mainTf_confidence]; norm_num, by decide⟩

/-- C6 as amended: inspecting a directory with exactly `main.tf` and
`provider.tf` at top level yields dialect terraform with confidence > 0
(no provider field exists in the result — provider detection is not part of
`inspect_repository`), and inspecting an empty, neutrally named directory
yields the default dialect bicep with the fixed default-guess confidence
0.5. -/
theorem claim_C6_amended :
    (inspect_repository mainTfTree).infra_type = "terraform" ∧
    0 < (inspect_repository mainTfTree).confidence ∧
    (inspect_repository emptyRepoTree).infra_type = "bicep" ∧
    (inspect_repository emptyRepoTree).confidence = 0.5 :=
  ⟨mainTf_infra, by rw [mainTf_confidence]; norm_num, empty_infra, empty_confidence⟩

/-- Counterexample to C8 as stated: a repository whose single file is
`provider.tf` gives Terraform strictly positive evidence (score 0.5), wins,
and returns confidence exactly 0.5 — the same value as the
default-on-ambiguity case — so the default-guess value is not reserved for
defaulted runs. -/
theorem claim_C8_counterexample :
    0 < calculate_confidence (tfBuckets (detect_terraform provOnlyTree)) ∧
    (inspect_repository provOnlyTree).infra_type = "terraform" ∧
    (inspect_repository provOnlyTree).confidence = 0.5 :=
  ⟨by rw [prov_det_tf, prov_score]; norm_num, prov_infra, prov_confidence⟩

/-- C8 as amended: the default-on-ambiguity case does return the fixed
confidence 0.5, but that value is also returned by a run in which a dialect
won on strictly positive evidence, so the confidence field alone does not
distinguish a confident detection from a defaulted guess. -/
theorem claim_C8_amended :
    ((inspect_repository emptyRepoTree).infra_type = "bicep" ∧
      (inspect_repository emptyRepoTree).confidence = 0.5) ∧
    (0 < calculate_confidence (tfBuckets (detect_terraform provOnlyTree)) ∧
      (inspect_repository provOnlyTree).infra_type = "terraform" ∧
      (inspect_repository provOnlyTree).confidence = 0.5) :=
  ⟨⟨empty_infra, empty_confidence⟩,
   ⟨by rw [prov_det_tf, prov_score]; norm_num, prov_infra, prov_confidence⟩⟩

/-! ## C7: the suggested file paths -/

theorem inspect_suggested_eq (t : FSTree) :
    (inspect_repository t).suggested_paths
      = suggest_file_paths t (inspect_repository t).infra_type
          (inspect_repository t).patterns_found := rfl

theorem inspect_patterns_eq (t : FSTree) :
    (inspect_repository t).patterns_found
      = (if (inspect_repository t).infra_type = "terraform"
          then Patterns.tf (detect_terraform t)
          else Patterns.bicep (detect_bicep t)) := rfl

/-- Counterexample to C7 as stated: in a repository whose only Terraform
file is `x/y.tf`, no dialect-named directory is discovered, yet the
suggested base path is `x` — the directory of the first `.tf` file — and
not the conventional `terraform` (nor `infra/terraform`) fallback the claim
prescribes. -/
theorem claim_C7_counterexample :
    (inspect_repository subdirTfTree).infra_type = "terraform" ∧
    (detect_terraform subdirTfTree).terraform_dirs = [] ∧
    (inspect_repository subdirTfTree).suggested_paths.iac_dir = ["x"] ∧
    (["x"] : Path) ≠ ["terraform"] ∧ (["x"] : Path) ≠ ["infra", "terraform"] := by
  refine ⟨subdir_infra, by rw [subdir_det_tf], ?_, by decide, by decide⟩
  have h1 := inspect_suggested_eq subdirTfTree
  rw [inspect_patterns_eq, subdir_infra, if_pos rfl, subdir_det_tf] at h1
  rw [h1]
  decide

/-- The reference path-suggestion of the amended C7: reuse the first
discovered dialect directory; else the directory of the first discovered
primary file; else the conventional name for the dialect, nested under
`infra/` exactly when a top-level entry named `infra` exists; `automation`
and `automation/runbooks` hang off the chosen base. -/
def suggestSpecAmended (t : FSTree) (infra_type : String) (patterns : Patterns) :
    Suggestions :=
  let dialectDirs :=
    if infra_type = "terraform" then patterns.terraform_dirs else patterns.bicep_dirs
  let primaryFiles :=
    if infra_type = "terraform" then patterns.tf_files else patterns.bicep_files
  let conventional := if infra_type = "terraform" then "terraform" else "bicep"
  let base :=
    match dialectDirs with
    | d :: _ => d
    | [] =>
      match primaryFiles with
      | f :: _ => f.dropLast
      | [] =>
        if existsTopLevel t "infra" then ["infra", conventional] else [conventional]
  ⟨base, base ++ ["automation"], base ++ ["automation", "runbooks"]⟩

/-- C7 as amended: for either winning dialect, the suggested paths equal the
reference definition — first discovered dialect directory, else directory of
the first primary file, else the conventional name nested under an existing
top-level `infra` entry — with `automation_dir = base/automation` and
`runbooks_dir = base/automation/runbooks`. -/
theorem claim_C7_amended (t : FSTree) (infra_type : String) (patterns : Patterns)
    (h : infra_type = "terraform" ∨ infra_type = "bicep") :
    suggest_file_paths t infra_type patterns = suggestSpecAmended t infra_type patterns := by
  rcases h with h | h <;> subst h <;>
    unfold suggest_file_paths suggestSpecAmended <;> simp only [reduceIte] <;> simp
  · cases hdirs : patterns.terraform_dirs with
    | cons d ds => simp
    | nil =>
      cases hfiles : patterns.tf_files with
      | cons f fs => simp
      | nil => simp
  · cases hdirs : patterns.bicep_dirs with
    | cons d ds => simp
    | nil =>
      cases hfiles : patterns.bicep_files with
      | cons f fs => simp
      | nil => simp

/-- Witness for the amended C7 at the concrete `x/y.tf` repository. -/
theorem claim_C7_witness :
    suggest_file_paths subdirTfTree "terraform"
        (.tf ⟨[["x", "y.tf"]], [], [], [], []⟩)
      = suggestSpecAmended subdirTfTree "terraform"
          (.tf ⟨[["x", "y.tf"]], [], [], [], []⟩) :=
  claim_C7_amended subdirTfTree "terraform" (.tf ⟨[["x", "y.tf"]], [], [], [], []⟩)
    (Or.inl rfl)

/-! ## C4, C5: error handling of the orchestrator -/

theorem executeTry_ok_notifs (wid : String) (env : ExecEnv) :
    ∀ ns r, executeTry wid env = .ok (ns, r) → ns.length = 1 := by
  obtain ⟨i, br, gf, cf, va, pr⟩ := env
  intro ns r h
  rcases i with e | it
  · simp [executeTry] at h
  · cases hg : invalidInfraGuard it with
    | true => simp [executeTry, hg] at h
    | false =>
      rcases br with e | b
      · simp [executeTry, hg] at h
      · rcases gf with e | files
        · simp [executeTry, hg] at h
        · rcases cf with e | sha
          · simp [executeTry, hg] at h
          · cases hv : (run_validation_checks it va).passed with
            | false =>
              simp only [executeTry, hg, hv, Bool.false_eq_true, if_false,
                Bool.not_false, if_true, Except.ok.injEq, Prod.mk.injEq] at h
              obtain ⟨h1, h2⟩ := h
              subst h1; rfl
            | true =>
              rcases pr with e | prv
              · simp [executeTry, hg, hv] at h
              · simp only [executeTry, hg, hv, Bool.false_eq_true, if_false,
                  Bool.not_true, Except.ok.injEq, Prod.mk.injEq] at h
                obtain ⟨h1, h2⟩ := h
                subst h1; rfl

/-- C4: every run sends exactly one notification, and an exception raised by
any step is captured, reported through one `'failed'` notification carrying
the error text, and re-raised unchanged to the caller. -/
theorem claim_C4_exception_one_notification_reraise (wid : String) (env : ExecEnv) :
    (execute wid env).1.length = 1 ∧
    (∀ e, executeTry wid env = .error e →
      execute wid env = ([⟨wid, "failed", some e, none⟩], .error e)) := by
  constructor
  · unfold execute
    cases h : executeTry wid env with
    | error e => simp
    | ok p =>
      obtain ⟨ns, r⟩ := p
      simpa using executeTry_ok_notifs wid env ns r h
  · intro e h
    unfold execute
    rw [h]

def c4Env : ExecEnv :=
  { inspect_infra_type := .error "boom"
    create_branch := .ok "b"
    generate_files := .ok []
    commit_files := .ok "sha"
    validation :=
      ⟨.ok ⟨"terraform_fmt", true, ""⟩, .ok ⟨"terraform_validate", true, ""⟩,
       .ok ⟨"bicep_build", true, ""⟩, .ok ⟨"secret_scan", true, ""⟩⟩
    create_pull_request := .ok (1, "url") }

theorem c4Env_raises : executeTry "w" c4Env = .error "boom" := rfl

/-- Witness for C4: a run whose repository inspection raises. -/
theorem claim_C4_witness :
    execute "w" c4Env = ([⟨"w", "failed", some "boom", none⟩], .error "boom") :=
  (claim_C4_exception_one_notification_reraise "w" c4Env).2 "boom" c4Env_raises

/-- C5: when the validation checks report not-passed (and the earlier steps
returned normally), `execute` does not raise: it sends one
`'failed_validation'` notification carrying the errors list and returns a
result with `success = False`, the fixed error text and the structured check
details. -/
theorem claim_C5_validation_failure_no_raise (wid : String) (env : ExecEnv)
    (it b sha : String) (files : List String)
    (h1 : env.inspect_infra_type = .ok it)
    (h2 : invalidInfraGuard it = false)
    (h3 : env.create_branch = .ok b)
    (h4 : env.generate_files = .ok files)
    (h5 : env.commit_files = .ok sha)
    (h6 : (run_validation_checks it env.validation).passed = false) :
    execute wid env =
      ([⟨wid, "failed_validation", none,
          some (run_validation_checks it env.validation).errors⟩],
       .ok ⟨false, wid, some "Validation checks failed",
          some (run_validation_checks it env.validation)⟩) := by
  unfold execute executeTry
  simp only [h1, h2, h3, h4, h5, h6, Bool.false_eq_true, if_false, Bool.not_false,
    if_true]

def c5Env : ExecEnv :=
  { inspect_infra_type := .ok "terraform"
    create_branch := .ok "b"
    generate_files := .ok ["f1"]
    commit_files := .ok "sha"
    validation :=
      ⟨.ok ⟨"terraform_fmt", false, "fmt error"⟩, .ok ⟨"terraform_validate", true, ""⟩,
       .ok ⟨"bicep_build", true, ""⟩, .ok ⟨"secret_scan", true, ""⟩⟩
    create_pull_request := .ok (1, "url") }

theorem c5Env_validation_fails :
    (run_validation_checks "terraform" c5Env.validation).passed = false := rfl

/-- Witness for C5: a run whose `terraform fmt` check fails. -/
theorem claim_C5_witness :
    execute "w" c5Env =
      ([⟨"w", "failed_validation", none,
          some (run_validation_checks "terraform" c5Env.validation).errors⟩],
       .ok ⟨false, "w", some "Validation checks failed",
          some (run_validation_checks "terraform" c5Env.validation)⟩) :=
  claim_C5_validation_failure_no_raise "w" c5Env "terraform" "b" "sha" ["f1"]
    rfl rfl rfl rfl rfl c5Env_validation_fails

/-! ## C9: the scan never records paths under pruned directories -/

/-- All components of a relative path belong to kept directories. -/
def pathOk (p : Path) : Prop := ∀ c ∈ p, keepDir c = true

mutual
theorem walkTree_rel_ok : ∀ (t : FSTree) (rel : Path), pathOk rel →
    ∀ v ∈ walkTree rel t, pathOk v.rel
  | .node _ _ subdirs, rel, h, v, hv => by
    rw [walkTree] at hv
    rcases List.mem_cons.mp hv with rfl | hv'
    · exact h
    · exact walkChildren_rel_ok subdirs rel h v hv'

theorem walkChildren_rel_ok : ∀ (ts : List FSTree) (rel : Path), pathOk rel →
    ∀ v ∈ walkChildren rel ts, pathOk v.rel
  | [], _, _, _, hv => by rw [walkChildren] at hv; cases hv
  | t :: ts, rel, h, v, hv => by
    rw [walkChildren] at hv
    rcases List.mem_append.mp hv with hv' | hv'
    · by_cases hk : keepDir t.name = true
      · rw [if_pos hk] at hv'
        refine walkTree_rel_ok t (rel ++ [t.name]) ?_ v hv'
        intro c hc
        rcases List.mem_append.mp hc with hc' | hc'
        · exact h c hc'
        · rcases List.mem_singleton.mp hc' with rfl
          exact hk
      · rw [if_neg (by simpa using hk)] at hv'
        cases hv'
    · exact walkChildren_rel_ok ts rel h v hv'
end

/-- Every path the Terraform detector records, across all five buckets. -/
def TfPatterns.allPaths (p : TfPatterns) : List Path :=
  p.tf_files ++ p.tfvars_files ++ p.terraform_dirs ++ p.provider_configs ++ p.state_files

/-- Every path the Bicep detector records, across all four buckets. -/
def BicepPatterns.allPaths (p : BicepPatterns) : List Path :=
  p.bicep_files ++ p.bicepparam_files ++ p.bicep_dirs ++ p.main_bicep

theorem tfFileStep_mem (rel : Path) (p : TfPatterns) (f : String) :
    ∀ q ∈ (tfFileStep rel p f).allPaths, q ∈ p.allPaths ∨ q = rel ++ [f] := by
  intro q hq
  simp only [tfFileStep] at hq
  split_ifs at hq <;>
    simp only [TfPatterns.allPaths, List.mem_append, List.mem_singleton] at hq ⊢ <;>
    tauto

theorem tfFold_mem (rel : Path) : ∀ (files : List String) (p : TfPatterns),
    ∀ q ∈ (files.foldl (tfFileStep rel) p).allPaths,
      q ∈ p.allPaths ∨ ∃ f ∈ files, q = rel ++ [f]
  | [], _, _, hq => .inl hq
  | f :: fs, p, q, hq => by
    rcases tfFold_mem rel fs (tfFileStep rel p f) q hq with h | ⟨g, hg, hq'⟩
    · rcases tfFileStep_mem rel p f q h with h' | h'
      · exact .inl h'
      · exact .inr ⟨f, by simp, h'⟩
    · exact .inr ⟨g, by simp [hg], hq'⟩

theorem tfDirStep_mem (p : TfPatterns) (v : VisitedDir) :
    ∀ q ∈ (tfDirStep p v).allPaths,
      q ∈ p.allPaths ∨ (∃ f, q = v.rel ++ [f]) ∨ q = v.rel := by
  intro q hq
  simp only [tfDirStep] at hq
  have step : ∀ q ∈ (v.files.foldl (tfFileStep v.rel) p).allPaths,
      q ∈ p.allPaths ∨ (∃ f, q = v.rel ++ [f]) ∨ q = v.rel := by
    intro q hq
    rcases tfFold_mem v.rel v.files p q hq with h | ⟨f, _, hq'⟩
    · exact .inl h
    · exact .inr (.inl ⟨f, hq'⟩)
  split_ifs at hq
  · simp only [TfPatterns.allPaths, List.mem_append, List.mem_singleton] at hq
    rcases hq with ((((h | h) | (h | h)) | h) | h)
    all_goals first
      | · right; right; exact h
      | · have := step q (by
            simp only [TfPatterns.allPaths, List.mem_append]; tauto)
          exact this
  · exact step q hq

theorem tfDirFold_mem : ∀ (L : List VisitedDir) (p : TfPatterns),
    ∀ q ∈ (L.foldl tfDirStep p).allPaths,
      q ∈ p.allPaths ∨ ∃ v ∈ L, (∃ f, q = v.rel ++ [f]) ∨ q = v.rel
  | [], _, _, hq => .inl hq
  | v :: vs, p, q, hq => by
    rcases tfDirFold_mem vs (tfDirStep p v) q hq with h | ⟨w, hw, hcase⟩
    · rcases tfDirStep_mem p v q h with h' | h'
      · exact .inl h'
      · exact .inr ⟨v, by simp, h'⟩
    · exact .inr ⟨w, by simp [hw], hcase⟩

theorem detect_terraform_mem (t : FSTree) :
    ∀ q ∈ (detect_terraform t).allPaths,
      ∃ v ∈ walkTree [] t, (∃ f, q = v.rel ++ [f]) ∨ q = v.rel := by
  intro q hq
  rcases tfDirFold_mem (walkTree [] t) ⟨[], [], [], [], []⟩ q hq with h | h
  · simp [TfPatterns.allPaths] at h
  · exact h

theorem bicepFileStep_mem (rel : Path) (p : BicepPatterns) (f : String) :
    ∀ q ∈ (bicepFileStep rel p f).allPaths, q ∈ p.allPaths ∨ q = rel ++ [f] := by
  intro q hq
  simp only [bicepFileStep] at hq
  split_ifs at hq <;>
    simp only [BicepPatterns.allPaths, List.mem_append, List.mem_singleton] at hq ⊢ <;>
    tauto

theorem bicepFold_mem (rel : Path) : ∀ (files : List String) (p : BicepPatterns),
    ∀ q ∈ (files.foldl (bicepFileStep rel) p).allPaths,
      q ∈ p.allPaths ∨ ∃ f ∈ files, q = rel ++ [f]
  | [], _, _, hq => .inl hq
  | f :: fs, p, q, hq => by
    rcases bicepFold_mem rel fs (bicepFileStep rel p f) q hq with h | ⟨g, hg, hq'⟩
    · rcases bicepFileStep_mem rel p f q h with h' | h'
      · exact .inl h'
      · exact .inr ⟨f, by simp, h'⟩
    · exact .inr ⟨g, by simp [hg], hq'⟩

theorem bicepDirStep_mem (p : BicepPatterns) (v : VisitedDir) :
    ∀ q ∈ (bicepDirStep p v).allPaths,
      q ∈ p.allPaths ∨ (∃ f, q = v.rel ++ [f]) ∨ q = v.rel := by
  intro q hq
  simp only [bicepDirStep] at hq
  have step : ∀ q ∈ (v.files.foldl (bicepFileStep v.rel) p).allPaths,
      q ∈ p.allPaths ∨ (∃ f, q = v.rel ++ [f]) ∨ q = v.rel := by
    intro q hq
    rcases bicepFold_mem v.rel v.files p q hq with h | ⟨f, _, hq'⟩
    · exact .inl h
    · exact .inr (.inl ⟨f, hq'⟩)
  split_ifs at hq
  · simp only [BicepPatterns.allPaths, List.mem_append, List.mem_singleton] at hq
    rcases hq with (((h | h) | (h | h)) | h)
    all_goals first
      | · right; right; exact h
      | · have := step q (by
            simp only [BicepPatterns.allPaths, List.mem_append]; tauto)
          exact this
  · exact step q hq

theorem bicepDirFold_mem : ∀ (L : List VisitedDir) (p : BicepPatterns),
    ∀ q ∈ (L.foldl bicepDirStep p).allPaths,
      q ∈ p.allPaths ∨ ∃ v ∈ L, (∃ f, q = v.rel ++ [f]) ∨ q = v.rel
  | [], _, _, hq => .inl hq
  | v :: vs, p, q, hq => by
    rcases bicepDirFold_mem vs (bicepDirStep p v) q hq with h | ⟨w, hw, hcase⟩
    · rcases bicepDirStep_mem p v q h with h' | h'
      · exact .inl h'
      · exact .inr ⟨v, by simp, h'⟩
    · exact .inr ⟨w, by simp [hw], hcase⟩

theorem detect_bicep_mem (t : FSTree) :
    ∀ q ∈ (detect_bicep t).allPaths,
      ∃ v ∈ walkTree [] t, (∃ f, q = v.rel ++ [f]) ∨ q = v.rel := by
  intro q hq
  rcases bicepDirFold_mem (walkTree [] t) ⟨[], [], [], []⟩ q hq with h | h
  · simp [BicepPatterns.allPaths] at h
  · exact h

theorem keepDir_spec (c : String) (h : keepDir c = true) :
    startsWithStr c "." = false ∧ c ∉ ["node_modules", "venv", "__pycache__"] := by
  simp only [keepDir, Bool.and_eq_true, Bool.not_eq_true'] at h
  refine ⟨h.1, fun hc => ?_⟩
  have h2 := h.2
  rw [show (["node_modules", "venv", "__pycache__"].contains c) = true from
    List.elem_eq_true_of_mem hc] at h2
  cases h2

theorem recorded_parents_keep (t : FSTree) (q : Path)
    (h : ∃ v ∈ walkTree [] t, (∃ f, q = v.rel ++ [f]) ∨ q = v.rel) :
    ∀ c ∈ q.dropLast, keepDir c = true := by
  obtain ⟨v, hv, hcase⟩ := h
  have hrel : pathOk v.rel :=
    walkTree_rel_ok t [] (fun c hc => absurd hc (List.not_mem_nil c)) v hv
  intro c hc
  rcases hcase with ⟨f, rfl⟩ | rfl
  · rw [List.dropLast_concat] at hc
    exact hrel c hc
  · exact hrel c (List.mem_of_mem_dropLast hc)

/-- C9: no path recorded in any evidence bucket of either detector lies
under a hidden directory (basename starting with `.`) or under a directory
of the fixed exclusion set `node_modules`, `venv`, `__pycache__`: every
proper ancestor component of a recorded relative path survives the pruning
filter. -/
theorem claim_C9_no_pruned_ancestors (t : FSTree) :
    (∀ q ∈ (detect_terraform t).allPaths, ∀ c ∈ q.dropLast,
      startsWithStr c "." = false ∧ c ∉ ["node_modules", "venv", "__pycache__"]) ∧
    (∀ q ∈ (detect_bicep t).allPaths, ∀ c ∈ q.dropLast,
      startsWithStr c "." = false ∧ c ∉ ["node_modules", "venv", "__pycache__"]) := by
  constructor
  · intro q hq c hc
    exact keepDir_spec c
      (recorded_parents_keep t q (detect_terraform_mem t q hq) c hc)
  · intro q hq c hc
    exact keepDir_spec c
      (recorded_parents_keep t q (detect_bicep_mem t q hq) c hc)

/-- Witness for C9 at a concrete repository: the recorded path
`x/a.tf` has its parent component `x` outside the pruned set. -/
theorem claim_C9_witness :
    startsWithStr "x" "." = false ∧ "x" ∉ ["node_modules", "venv", "__pycache__"] :=
  (claim_C9_no_pruned_ancestors (.node "repo" [] [.node "x" ["a.tf"] []])).1
    ["x", "a.tf"] (by decide) "x" (by decide)

end VMSnooze
